import Mathlib

/-!
Shallow embedding of `app.py` (tiliter-receipt-bot): a Flask webhook that
receives Slack events, downloads image attachments, submits them to the
Tiliter receipt-inference API and posts a formatted reply back to Slack.

External collaborators (the HTTP world) are modelled as a `World` record of
response functions; the Upstash Redis keyspace is a `Store` function from
keys to optional string values; all observable side effects (downloads,
inference calls, Slack replies, the HTTP response) are collected in an
ordered trace of `Effect`s.  A Python `KeyError` escaping the handler
(Flask then answers with a 5xx error page) is modelled as `none`.
-/

namespace ReceiptBot

/-- Whether the second list is an initial segment of the first. -/
def listLeadsWith : List Char → List Char → Bool
  | _, [] => true
  | [], _ :: _ => false
  | a :: as, b :: bs => a == b && listLeadsWith as bs

/-- Python `s.startswith(pre)`. -/
def pyStartsWith (s pre : String) : Bool :=
  listLeadsWith s.data pre.data

/-- Python's default `str.strip()` whitespace set (ASCII part). -/
def isStripChar (c : Char) : Bool :=
  c == ' ' || c == '\t' || c == '\n' || c == '\r' || c == '\x0b' || c == '\x0c'

/-- Python `s.strip()`: remove leading and trailing whitespace. -/
def pyStrip (s : String) : String :=
  String.mk (((s.data.dropWhile isStripChar).reverse.dropWhile isStripChar).reverse)

/-- Python string truthiness for an optional string (`if not x` is false
exactly when the value is present and non-empty). -/
def pyTruthy : Option String → Bool
  | none => false
  | some s => s != ""

/-- Python `x or d` for strings: `x` when non-empty, else `d`. -/
def pyOr (s d : String) : String :=
  if s = "" then d else s

/-- One entry of `event["files"]`, restricted to the fields the code reads
(`file.get('mimetype', '')` and `file['url_private']`). -/
structure FileObj where
  mimetype : Option String
  url_private : Option String
  deriving DecidableEq, Repr

/-- The inner `event` object of an event_callback payload, restricted to the
fields the code reads.  `bot_id` models the presence test `"bot_id" in event`. -/
structure EventObj where
  user : Option String
  etype : Option String
  bot_id : Bool
  channel : Option String
  ts : Option String
  files : Option (List FileObj)
  deriving DecidableEq, Repr

/-- The JSON body of a POST to `/events`.  `event_id` is carried by Slack as
the retry-stable identifier of the logical event; the code never reads it. -/
structure SlackPayload where
  ptype : Option String
  challenge : Option String
  event_id : Option String
  event : Option EventObj
  deriving DecidableEq, Repr

/-- `data.get("event", {})`: the empty dict, on which every `.get` misses. -/
def emptyEvent : EventObj :=
  { user := none, etype := none, bot_id := false, channel := none, ts := none, files := none }

/-- One item of the structured inference result (`result["items"][i]`). -/
structure Item where
  name : Option String
  price : Option String
  deriving DecidableEq, Repr

/-- The structured inference result `response.json()["result"]`, restricted to
the fields the code reads; `none` models an absent JSON field. -/
structure ReceiptResult where
  merchant : Option String
  total : Option String
  date : Option String
  address : Option String
  currency : Option String
  items : Option (List Item)
  deriving DecidableEq, Repr

/-- The all-absent inference result, i.e. `result` missing or `{}`. -/
def rAllNone : ReceiptResult :=
  { merchant := none, total := none, date := none, address := none,
    currency := none, items := none }

/-! ### Reply formatting (`handle_image`, lines 138-157 of app.py) -/

/-- `result.get("merchant", "Unknown")` followed by `merchant or 'Unknown'`. -/
def renderedMerchant (r : ReceiptResult) : String :=
  pyOr (r.merchant.getD "Unknown") "Unknown"

/-- `result.get("date", "N/A")` followed by `date or 'N/A'`. -/
def renderedDate (r : ReceiptResult) : String :=
  pyOr (r.date.getD "N/A") "N/A"

/-- `result.get("total", "N/A")` followed by `total or 'N/A'`. -/
def renderedTotal (r : ReceiptResult) : String :=
  pyOr (r.total.getD "N/A") "N/A"

/-- `result.get("address", "")` followed by `address or 'N/A'`. -/
def renderedAddress (r : ReceiptResult) : String :=
  pyOr (r.address.getD "") "N/A"

/-- `result.get("currency", "")` followed by `currency or ''`. -/
def renderedCurrency (r : ReceiptResult) : String :=
  pyOr (r.currency.getD "") ""

/-- `item.get('name', 'Unnamed')`. -/
def renderedItemName (i : Item) : String :=
  i.name.getD "Unnamed"

/-- `item.get('price') or 'N/A'` (absent or empty price renders as N/A). -/
def renderedItemPrice (i : Item) : String :=
  pyOr (i.price.getD "") "N/A"

/-- One bullet of the item list. -/
def itemLine (currency : String) (i : Item) : String :=
  "• " ++ renderedItemName i ++ " — " ++ renderedItemPrice i ++ pyOr currency ""

/-- `"\n".join([...]) if items else "_No items detected._"`. -/
def itemLinesOf (currency : String) (items : List Item) : String :=
  if items.isEmpty then "_No items detected._"
  else String.intercalate "\n" (items.map (itemLine currency))

/-- `result.get("items", [])` joined into the items block. -/
def renderedItemLines (r : ReceiptResult) : String :=
  itemLinesOf (r.currency.getD "") (r.items.getD [])

/-- The success reply built by `handle_image` from the parsed result. -/
def formatReceipt (result : ReceiptResult) : String :=
  "🧾 *Receipt Details:*\n- Merchant: *" ++ renderedMerchant result
    ++ "*\n- Date: *" ++ renderedDate result
    ++ "*\n- Total: *" ++ renderedTotal result ++ " " ++ renderedCurrency result
    ++ "*\n- Address: " ++ renderedAddress result
    ++ "\n\n🛒 *Items:*\n" ++ renderedItemLines result

/-! ### base64 transport encoding (`base64.b64encode(...).decode('utf-8')`) -/

/-- The RFC 4648 base64 alphabet. -/
def base64Alphabet : List Char :=
  "ABCDEFGHIJKLMNOPQRSTUVWXYZabcdefghijklmnopqrstuvwxyz0123456789+/".data

/-- The base64 digit for a 6-bit value. -/
def b64Char (n : Nat) : Char :=
  base64Alphabet.getD n '='

/-- Encode a final group of at most three bytes, padding with `=`. -/
def base64Chunk : List Nat → List Char
  | [b0, b1, b2] =>
    [b64Char (b0 / 4), b64Char (b0 % 4 * 16 + b1 / 16),
     b64Char (b1 % 16 * 4 + b2 / 64), b64Char (b2 % 64)]
  | [b0, b1] =>
    [b64Char (b0 / 4), b64Char (b0 % 4 * 16 + b1 / 16), b64Char (b1 % 16 * 4), '=']
  | [b0] =>
    [b64Char (b0 / 4), b64Char (b0 % 4 * 16), '=', '=']
  | _ => []

/-- Encode a byte sequence in base64. -/
def base64Bytes : List Nat → List Char
  | b0 :: b1 :: b2 :: rest => base64Chunk [b0, b1, b2] ++ base64Bytes rest
  | rest => base64Chunk rest

/-- The UTF-8 bytes of one character (RFC 3629). -/
def utf8Bytes (c : Char) : List Nat :=
  let n := c.toNat
  if n < 128 then [n]
  else if n < 2048 then [192 + n / 64, 128 + n % 64]
  else if n < 65536 then [224 + n / 4096, 128 + n / 64 % 64, 128 + n % 64]
  else [240 + n / 262144, 128 + n / 4096 % 64, 128 + n / 64 % 64, 128 + n % 64]

/-- `base64.b64encode(content).decode('utf-8')` over the UTF-8 bytes of the
modelled content string. -/
def base64Encode (s : String) : String :=
  String.mk (base64Bytes (s.data.flatMap utf8Bytes))

/-! ### External HTTP world -/

/-- The response to `requests.get(image_url, ...)`: status and raw bytes. -/
structure DownloadResponse where
  status : Nat
  content : String
  deriving DecidableEq, Repr

/-- Outcome of `response.json().get("result", {})` on the inference response:
either a parsed structured result or an exception caught by the `try` block. -/
inductive InfParse where
  | parsed (r : ReceiptResult)
  | parseError (msg : String)
  deriving DecidableEq, Repr

/-- The response to `requests.post(TILITER_URL, ...)`. -/
structure InfResponse where
  status : Nat
  text : String
  parse : InfParse
  deriving DecidableEq, Repr

/-- The external HTTP collaborators: image download keyed by URL, inference
keyed by API key and the transported payload string. -/
structure World where
  download : String → DownloadResponse
  inference : String → String → InfResponse

/-- An observable side effect, in program order.  `reply` is a
`chat.postMessage` call made by `post_to_slack`; `respond` is the HTTP
response handed back to Slack by the Flask handler. -/
inductive Effect where
  | download (url : String)
  | inference (api_key payload : String)
  | reply (channel ts : Option String) (text : String)
  | respond (body : String) (status : Nat)
  deriving DecidableEq, Repr

/-- The Upstash Redis keyspace. -/
def Store := String → Option String

/-- `redis.set(k, v)` (the `ex=` TTL is not modelled; a key within its TTL is
a key that is present). -/
def setStore (s : Store) (k v : String) : Store :=
  fun k' => if k' = k then some v else s k'

/-- `redis.delete(k)`. -/
def delStore (s : Store) (k : String) : Store :=
  fun k' => if k' = k then none else s k'

/-- The empty keyspace. -/
def emptyStore : Store := fun _ => none

/-! ### `handle_image` (app.py lines 108-160) -/

/-- `file.get('mimetype', '').startswith('image/')`. -/
def isImage (f : FileObj) : Bool :=
  pyStartsWith (f.mimetype.getD "") "image/"

/-- Per-attachment pipeline `handle_image(image_url, api_key)`: returns the
reply text together with the trace of external calls it makes. -/
def handle_image (w : World) (image_url api_key : String) : String × List Effect :=
  let image_response := w.download image_url
  if image_response.status ≠ 200 then
    (":x: Failed to download image. Status: " ++ toString image_response.status,
     [Effect.download image_url])
  else
    let image_b64 := base64Encode image_response.content
    let payload := "data:image/jpeg;base64," ++ image_b64
    let response := w.inference api_key payload
    if response.status ≠ 200 then
      (":x: Tiliter API error " ++ toString response.status ++ ": " ++ response.text,
       [Effect.download image_url, Effect.inference api_key payload])
    else
      match response.parse with
      | InfParse.parsed result =>
        (formatReceipt result,
         [Effect.download image_url, Effect.inference api_key payload])
      | InfParse.parseError e =>
        (":x: Could not parse Tiliter response:\n" ++ e,
         [Effect.download image_url, Effect.inference api_key payload])

/-! ### `slack_events` (app.py lines 23-71) -/

/-- The registration-prompt warning posted to a user with no stored API key. -/
def warnText : String :=
  ":warning: You haven’t set your Tiliter API key yet.\n\n"
    ++ "Please visit https://ai.vision.tiliter.com to purchase credits and copy your API key. Then run:\n"
    ++ "`/set-apikey YOUR_KEY`"

/-- The `for file in event['files']` loop: each image-typed file is handled
and its result posted to the thread.  `none` models the `KeyError` raised by
`file['url_private']`, `event['channel']` or `event['ts']` when absent. -/
def processFiles (w : World) (api_key : String) (channel ts : Option String) :
    List FileObj → Option (List Effect)
  | [] => some []
  | file :: rest =>
    if isImage file then
      match file.url_private, channel, ts with
      | some image_url, some ch, some th =>
        match processFiles w api_key channel ts rest with
        | none => none
        | some effs =>
          let r := handle_image w image_url api_key
          some (r.2 ++ [Effect.reply (some ch) (some th) r.1] ++ effs)
      | _, _, _ => none
    else processFiles w api_key channel ts rest

/-- The `/events` POST handler `slack_events()`: returns the ordered effect
trace (ending with the HTTP response) and the resulting keyspace, or `none`
when a `KeyError` escapes (Flask then responds with a server error). -/
def slack_events (w : World) (store : Store) (data : SlackPayload) :
    Option (List Effect × Store) :=
  if data.ptype = some "url_verification" then
    match data.challenge with
    | none => none
    | some ch => some ([Effect.respond ch 200], store)
  else
    let event := data.event.getD emptyEvent
    let user_id := event.user
    let event_type := event.etype
    if user_id = none ∨ user_id = some "" then
      some ([Effect.respond "No user ID" 200], store)
    else if event_type ≠ some "message" then
      some ([Effect.respond "Skipping non-message event" 200], store)
    else if event.bot_id then
      some ([Effect.respond "Ignore bot message" 200], store)
    else
      match store ("key:" ++ user_id.getD "") with
      | none =>
        if pyTruthy (store ("warned:" ++ user_id.getD "")) then
          some ([Effect.respond "No API key" 200], store)
        else
          some ([Effect.reply event.channel event.ts warnText,
                 Effect.respond "No API key" 200],
                setStore store ("warned:" ++ user_id.getD "") "1")
      | some api_key =>
        match event.files with
        | none => some ([Effect.respond "OK" 200], store)
        | some files =>
          match processFiles w api_key event.channel event.ts files with
          | none => none
          | some effs => some (effs ++ [Effect.respond "OK" 200], store)

/-! ### Credential commands (app.py lines 73-106) -/

/-- The `/set-apikey` handler `set_api_key()`: `user_id` and `text` are the
form fields (absent form fields model as `none`); the submitted key is
whitespace-stripped before the emptiness check and before storage. -/
def set_api_key (store : Store) (user_id text : Option String) : String × Store :=
  let text := pyStrip (text.getD "")
  if user_id = none ∨ user_id = some "" ∨ text = "" then
    ("❌ Please provide your API key like this:\n/set-apikey YOUR_KEY", store)
  else
    ("✅ Your Tiliter API key has been registered successfully.",
     setStore store ("key:" ++ user_id.getD "") text)

/-- The `/get-apikey` handler `get_api_key()` (`if not api_key` treats an
absent or empty stored value as missing). -/
def get_api_key (store : Store) (user_id : Option String) : String :=
  if user_id = none ∨ user_id = some "" then
    "❌ Could not identify your user ID."
  else
    match store ("key:" ++ user_id.getD "") with
    | none => "ℹ️ No API key found for your user."
    | some api_key =>
      if api_key = "" then "ℹ️ No API key found for your user."
      else "🔐 Your current API key is:\n```" ++ api_key ++ "```"

/-- The `/delete-apikey` handler `delete_api_key()`: removes the credential
and the warn-throttle marker of the user. -/
def delete_api_key (store : Store) (user_id : Option String) : String × Store :=
  if user_id = none ∨ user_id = some "" then
    ("❌ Could not identify your user ID.", store)
  else
    ("🗑️ Your Tiliter API key has been deleted.",
     delStore (delStore store ("key:" ++ user_id.getD "")) ("warned:" ++ user_id.getD ""))

/-! ### Trace observations and repeated deliveries -/

/-- Whether an effect is the HTTP response. -/
def isRespond : Effect → Bool
  | Effect.respond _ _ => true
  | _ => false

/-- Whether an effect is an image download. -/
def isDownload : Effect → Bool
  | Effect.download _ => true
  | _ => false

/-- Whether an effect is an inference-gateway call. -/
def isInfCall : Effect → Bool
  | Effect.inference _ _ => true
  | _ => false

/-- The texts of the Slack replies in a trace, in order. -/
def replyTexts (effs : List Effect) : List String :=
  effs.filterMap fun e =>
    match e with
    | Effect.reply _ _ t => some t
    | _ => none

/-- Number of Slack replies in a trace. -/
def countReplies (effs : List Effect) : Nat :=
  (replyTexts effs).length

/-- Number of image downloads in a trace (each `handle_image` invocation
performs exactly one download attempt). -/
def countDownloads (effs : List Effect) : Nat :=
  (effs.filter isDownload).length

/-- Number of inference-gateway calls in a trace. -/
def countInfCalls (effs : List Effect) : Nat :=
  (effs.filter isInfCall).length

/-- The effect trace of a handler outcome (empty when the handler raised). -/
def effsOf : Option (List Effect × Store) → List Effect
  | none => []
  | some (effs, _) => effs

/-- The keyspace after a handler outcome (unchanged when the handler raised). -/
def storeAfter (s : Store) : Option (List Effect × Store) → Store
  | none => s
  | some (_, s') => s'

/-- The HTTP status of the response a handler outcome produced, when the last
effect of the trace is the response. -/
def statusOf : Option (List Effect × Store) → Option Nat
  | none => none
  | some (effs, _) =>
    match effs.getLast? with
    | some (Effect.respond _ st) => some st
    | _ => none

/-- `n` sequential deliveries of the same payload, threading the keyspace;
the traces are concatenated in order.  A delivery that raises contributes
no effects and stops the sequence. -/
def deliverMany (w : World) (data : SlackPayload) : Nat → Store → List Effect × Store
  | 0, store => ([], store)
  | n + 1, store =>
    match slack_events w store data with
    | none => ([], store)
    | some (effs, store') =>
      let r := deliverMany w data n store'
      (effs ++ r.1, r.2)

/-- A well-formed file entry: if it is an image, the fields the loop
bracket-accesses must be present. -/
def wellFormedFileB (ev : EventObj) (f : FileObj) : Bool :=
  !(isImage f) || (f.url_private.isSome && ev.channel.isSome && ev.ts.isSome)

/-- A well-formed inbound delivery: every JSON field the handler accesses
with `[]` (rather than `.get`) is present, so no `KeyError` can be raised. -/
def wellFormedB (data : SlackPayload) : Bool :=
  if data.ptype = some "url_verification" then data.challenge.isSome
  else
    match data.event with
    | none => true
    | some ev =>
      match ev.files with
      | none => true
      | some fs => fs.all (wellFormedFileB ev)

/-! ### Concrete fixtures -/

/-- A keyspace holding a credential for user U1 and nothing else. -/
def store0 : Store := fun k => if k = "key:U1" then some "sk-test" else none

/-- A world where every download succeeds with content "abc" and inference
always parses to the all-absent result. -/
def w0 : World :=
  { download := fun _ => { status := 200, content := "abc" },
    inference := fun _ _ => { status := 200, text := "", parse := InfParse.parsed rAllNone } }

/-- A single image attachment. -/
def files0 : List FileObj :=
  [{ mimetype := some "image/png", url_private := some "https://img" }]

/-- An image-message event from credentialed user U1. -/
def ev0 : EventObj :=
  { user := some "U1", etype := some "message", bot_id := false,
    channel := some "C1", ts := some "111.222", files := some files0 }

/-- A well-formed image-message delivery from U1 with event_id Ev123. -/
def p0 : SlackPayload :=
  { ptype := some "event_callback", challenge := none, event_id := some "Ev123",
    event := some ev0 }

/-- The effect trace of one delivery of `p0` against `w0` and `store0`. -/
def trace0 : List Effect :=
  [Effect.download "https://img",
   Effect.inference "sk-test" "data:image/jpeg;base64,YWJj",
   Effect.reply (some "C1") (some "111.222") (formatReceipt rAllNone),
   Effect.respond "OK" 200]

/-- A url_verification payload whose event_id collides with `p0`. -/
def pVerif : SlackPayload :=
  { ptype := some "url_verification", challenge := some "tok-123",
    event_id := some "Ev123", event := some ev0 }

/-- An image-message event from credential-less user U2. -/
def evWarn : EventObj :=
  { user := some "U2", etype := some "message", bot_id := false,
    channel := some "C2", ts := some "222.333", files := some files0 }

/-- An image-message delivery from U2, who has no stored API key. -/
def pWarn : SlackPayload :=
  { ptype := some "event_callback", challenge := none, event_id := some "Ev456",
    event := some evWarn }

/-- Two image attachments and one non-image attachment. -/
def filesDual : List FileObj :=
  [{ mimetype := some "image/jpeg", url_private := some "https://img1" },
   { mimetype := some "image/png", url_private := some "https://img2" },
   { mimetype := some "text/plain", url_private := some "https://txt" }]

/-- An event from U1 carrying `filesDual`. -/
def evDual : EventObj :=
  { user := some "U1", etype := some "message", bot_id := false,
    channel := some "C1", ts := some "333.444", files := some filesDual }

/-- A delivery of `evDual`. -/
def pDual : SlackPayload :=
  { ptype := some "event_callback", challenge := none, event_id := some "Ev789",
    event := some evDual }

/-- A world where the first attachment's download fails with 500 and every
other download succeeds. -/
def wDual : World :=
  { download := fun url =>
      if url = "https://img1" then { status := 500, content := "" }
      else { status := 200, content := "abc" },
    inference := fun _ _ => { status := 200, text := "", parse := InfParse.parsed rAllNone } }

/-- A world whose downloads always fail with status 500. -/
def wDown500 : World :=
  { download := fun _ => { status := 500, content := "" },
    inference := fun _ _ => { status := 200, text := "", parse := InfParse.parsed rAllNone } }

/-- A 1000-character inference response body. -/
def longBody : String := String.mk (List.replicate 1000 'a')

/-- A world whose inference gateway fails with status 500 and the
1000-character raw body. -/
def wLong : World :=
  { download := fun _ => { status := 200, content := "abc" },
    inference := fun _ _ => { status := 500, text := longBody, parse := InfParse.parseError "" } }

/-- A keyspace holding U1's credential, U1's warn marker and U2's credential. -/
def storeC : Store := fun k =>
  if k = "key:U1" then some "sk-test"
  else if k = "warned:U1" then some "1"
  else if k = "key:U2" then some "sk-other"
  else none

/-! ### Store and key lemmas -/

/-- Reading back the key just written. -/
theorem setStore_self (s : Store) (k v : String) : setStore s k v k = some v := by
  simp [setStore]

/-- Writing one key leaves every other key unchanged. -/
theorem setStore_ne (s : Store) (k v k' : String) (h : k' ≠ k) :
    setStore s k v k' = s k' := by
  simp [setStore, h]

/-- A deleted key reads as absent. -/
theorem delStore_self (s : Store) (k : String) : delStore s k k = none := by
  simp [delStore]

/-- Deleting one key leaves every other key unchanged. -/
theorem delStore_ne (s : Store) (k k' : String) (h : k' ≠ k) :
    delStore s k k' = s k' := by
  simp [delStore, h]

/-- The credential namespace and the warn-throttle namespace never collide. -/
theorem key_ne_warned (u v : String) : "key:" ++ u ≠ "warned:" ++ v := by
  intro h
  have h2 := congrArg String.data h
  rw [String.data_append, String.data_append,
      show "key:".data = ['k', 'e', 'y', ':'] from rfl,
      show "warned:".data = ['w', 'a', 'r', 'n', 'e', 'd', ':'] from rfl] at h2
  simp at h2

/-! ### Branch lemmas for `slack_events` -/

/-- The url_verification branch answers with the challenge token. -/
theorem se_challenge (w : World) (store : Store) (data : SlackPayload) (ch : String)
    (h1 : data.ptype = some "url_verification") (h2 : data.challenge = some ch) :
    slack_events w store data = some ([Effect.respond ch 200], store) := by
  unfold slack_events
  rw [if_pos h1, h2]

/-- The credential-missing, unthrottled branch: warn once and set the marker. -/
theorem se_warn (w : World) (store : Store) (data : SlackPayload) (ev : EventObj) (u : String)
    (hp : data.ptype ≠ some "url_verification") (hev : data.event = some ev)
    (hu : ev.user = some u) (hne : u ≠ "") (ht : ev.etype = some "message")
    (hb : ev.bot_id = false) (hkey : store ("key:" ++ u) = none)
    (hwarn : pyTruthy (store ("warned:" ++ u)) = false) :
    slack_events w store data =
      some ([Effect.reply ev.channel ev.ts warnText, Effect.respond "No API key" 200],
            setStore store ("warned:" ++ u) "1") := by
  simp [slack_events, hp, hev, hu, hne, ht, hb, hkey, hwarn]

/-- The credential-missing, throttled branch: silent acknowledgment. -/
theorem se_throttle (w : World) (store : Store) (data : SlackPayload) (ev : EventObj) (u : String)
    (hp : data.ptype ≠ some "url_verification") (hev : data.event = some ev)
    (hu : ev.user = some u) (hne : u ≠ "") (ht : ev.etype = some "message")
    (hb : ev.bot_id = false) (hkey : store ("key:" ++ u) = none)
    (hwarn : pyTruthy (store ("warned:" ++ u)) = true) :
    slack_events w store data = some ([Effect.respond "No API key" 200], store) := by
  simp [slack_events, hp, hev, hu, hne, ht, hb, hkey, hwarn]

/-- The credentialed branch with attachments: process files, then acknowledge. -/
theorem se_files (w : World) (store : Store) (data : SlackPayload) (ev : EventObj)
    (u api_key : String) (files : List FileObj) (effs : List Effect)
    (hp : data.ptype ≠ some "url_verification") (hev : data.event = some ev)
    (hu : ev.user = some u) (hne : u ≠ "") (ht : ev.etype = some "message")
    (hb : ev.bot_id = false) (hkey : store ("key:" ++ u) = some api_key)
    (hfiles : ev.files = some files)
    (hpf : processFiles w api_key ev.channel ev.ts files = some effs) :
    slack_events w store data = some (effs ++ [Effect.respond "OK" 200], store) := by
  simp [slack_events, hp, hev, hu, hne, ht, hb, hkey, hfiles, hpf]

/-! ### Effect-trace lemmas -/

/-- `handle_image` performs exactly one download, at most one inference call,
posts nothing itself and never answers HTTP. -/
theorem handle_image_effs (w : World) (url k : String) :
    replyTexts (handle_image w url k).2 = [] ∧
    countDownloads (handle_image w url k).2 = 1 ∧
    countInfCalls (handle_image w url k).2 ≤ 1 ∧
    ∀ e ∈ (handle_image w url k).2, isRespond e = false := by
  simp only [handle_image]
  split
  · simp [replyTexts, countDownloads, countInfCalls, isDownload, isInfCall, isRespond]
  · split
    · simp [replyTexts, countDownloads, countInfCalls, isDownload, isInfCall, isRespond]
    · split <;>
        simp [replyTexts, countDownloads, countInfCalls, isDownload, isInfCall, isRespond]

/-- Structure of the file loop: it succeeds whenever every image attachment
has a download URL and the event has channel and timestamp; it posts exactly
one reply per image attachment, in order, each carrying that attachment's own
`handle_image` result, whatever that result is. -/
theorem processFiles_spec (w : World) (api_key : String) (channel ts : Option String)
    (files : List FileObj)
    (h : ∀ f ∈ files, isImage f = true →
      f.url_private ≠ none ∧ channel ≠ none ∧ ts ≠ none) :
    ∃ effs, processFiles w api_key channel ts files = some effs ∧
      replyTexts effs = (files.filter (fun f => isImage f)).map
        (fun f => (handle_image w (f.url_private.getD "") api_key).1) ∧
      countDownloads effs = (files.filter (fun f => isImage f)).length ∧
      ∀ e ∈ effs, isRespond e = false := by
  induction files with
  | nil => exact ⟨[], rfl, by simp [replyTexts], by simp [countDownloads], by simp⟩
  | cons f rest ih =>
    obtain ⟨effs, hpf, hrt, hcd, hnr⟩ :=
      ih (fun g hg himg => h g (List.mem_cons_of_mem _ hg) himg)
    by_cases himg : isImage f = true
    · obtain ⟨hurl, hch, hts⟩ := h f (List.mem_cons_self _ _) himg
      obtain ⟨url, hurl⟩ := Option.ne_none_iff_exists'.mp hurl
      obtain ⟨ch, hch⟩ := Option.ne_none_iff_exists'.mp hch
      obtain ⟨th, hts⟩ := Option.ne_none_iff_exists'.mp hts
      rw [hch, hts] at hpf
      refine ⟨(handle_image w url api_key).2
          ++ [Effect.reply (some ch) (some th) (handle_image w url api_key).1] ++ effs,
        ?_, ?_, ?_, ?_⟩
      · simp [processFiles, himg, hurl, hch, hts, hpf]
      · obtain ⟨h1, _, _, _⟩ := handle_image_effs w url api_key
        simp [replyTexts, List.filterMap_append, hurl, himg]
        rw [show List.filterMap _ (handle_image w url api_key).2 = ([] : List String) from h1]
        simpa [replyTexts] using hrt
      · obtain ⟨_, h2, _, _⟩ := handle_image_effs w url api_key
        have h2' : ((handle_image w url api_key).2.filter isDownload).length = 1 := by
          simpa [countDownloads] using h2
        have hcd' : (effs.filter isDownload).length =
            (rest.filter (fun f => isImage f)).length := by
          simpa [countDownloads] using hcd
        simp [countDownloads, List.filter_append, himg, isDownload]
        omega
      · intro e he
        rcases List.mem_append.mp he with he | he
        · rcases List.mem_append.mp he with he | he
          · exact (handle_image_effs w url api_key).2.2.2 e he
          · simp at he; simp [he, isRespond]
        · exact hnr e he
    · refine ⟨effs, ?_, ?_, ?_, hnr⟩
      · simpa [processFiles, himg] using hpf
      · simpa [himg] using hrt
      · simpa [himg] using hcd

/-- A successful file loop posts nothing to the HTTP layer. -/
theorem processFiles_no_respond (w : World) (api_key : String) (channel ts : Option String) :
    ∀ (files : List FileObj) (effs : List Effect),
      processFiles w api_key channel ts files = some effs →
      ∀ e ∈ effs, isRespond e = false := by
  intro files
  induction files with
  | nil =>
    intro effs h e he
    simp only [processFiles, Option.some.injEq] at h
    rw [← h] at he
    cases he
  | cons f rest ih =>
    intro effs h e he
    by_cases himg : isImage f = true
    · simp only [processFiles, himg, if_true] at h
      split at h
      · split at h
        · cases h
        · rename_i effs0 hpf
          simp only [Option.some.injEq] at h
          rw [← h] at he
          rcases List.mem_append.mp he with he1 | he1
          · rcases List.mem_append.mp he1 with he2 | he2
            · exact (handle_image_effs w _ api_key).2.2.2 e he2
            · simp at he2; simp [he2, isRespond]
          · exact ih effs0 hpf e he1
      · cases h
    · rw [Bool.not_eq_true] at himg
      simp only [processFiles, himg, Bool.false_eq_true, if_false] at h
      exact ih effs h e he

/-- The shared shape of every simple branch outcome. -/
theorem shape_simple (effs : List Effect) (b : String)
    (h1 : [Effect.respond b 200] = effs) :
    ∃ pre body, effs = pre ++ [Effect.respond body 200] ∧
      (∀ e ∈ pre, isRespond e = false) ∧
      (countDownloads pre ≠ 0 → body = "OK") :=
  ⟨[], b, by simp [← h1], by simp, fun hd => (hd (by simp [countDownloads])).elim⟩

/-- The url_verification branch with a missing challenge raises `KeyError`. -/
theorem se_challenge_none (w : World) (store : Store) (data : SlackPayload)
    (h1 : data.ptype = some "url_verification") (h2 : data.challenge = none) :
    slack_events w store data = none := by
  unfold slack_events
  rw [if_pos h1, h2]

/-- The missing-or-empty-user branch. -/
theorem se_nouser (w : World) (store : Store) (data : SlackPayload)
    (hp : data.ptype ≠ some "url_verification")
    (hfalse : (data.event.getD emptyEvent).user = none ∨
      (data.event.getD emptyEvent).user = some "") :
    slack_events w store data = some ([Effect.respond "No user ID" 200], store) := by
  unfold slack_events
  rw [if_neg hp, if_pos hfalse]

/-- The non-message-event branch. -/
theorem se_nonmsg (w : World) (store : Store) (data : SlackPayload)
    (hp : data.ptype ≠ some "url_verification")
    (huser : ¬((data.event.getD emptyEvent).user = none ∨
      (data.event.getD emptyEvent).user = some ""))
    (ht : (data.event.getD emptyEvent).etype ≠ some "message") :
    slack_events w store data =
      some ([Effect.respond "Skipping non-message event" 200], store) := by
  unfold slack_events
  rw [if_neg hp, if_neg huser, if_pos ht]

/-- The bot-message branch. -/
theorem se_bot (w : World) (store : Store) (data : SlackPayload)
    (hp : data.ptype ≠ some "url_verification")
    (huser : ¬((data.event.getD emptyEvent).user = none ∨
      (data.event.getD emptyEvent).user = some ""))
    (ht : ¬((data.event.getD emptyEvent).etype ≠ some "message"))
    (hb : (data.event.getD emptyEvent).bot_id = true) :
    slack_events w store data = some ([Effect.respond "Ignore bot message" 200], store) := by
  unfold slack_events
  rw [if_neg hp, if_neg huser, if_neg ht, if_pos hb]

/-- The credentialed branch with no files key. -/
theorem se_nofiles (w : World) (store : Store) (data : SlackPayload) (ev : EventObj)
    (u api_key : String)
    (hp : data.ptype ≠ some "url_verification") (hev : data.event = some ev)
    (hu : ev.user = some u) (hne : u ≠ "") (ht : ev.etype = some "message")
    (hb : ev.bot_id = false) (hkey : store ("key:" ++ u) = some api_key)
    (hfiles : ev.files = none) :
    slack_events w store data = some ([Effect.respond "OK" 200], store) := by
  simp [slack_events, hp, hev, hu, hne, ht, hb, hkey, hfiles]

/-- The credentialed branch when the file loop raises. -/
theorem se_files_err (w : World) (store : Store) (data : SlackPayload) (ev : EventObj)
    (u api_key : String) (files : List FileObj)
    (hp : data.ptype ≠ some "url_verification") (hev : data.event = some ev)
    (hu : ev.user = some u) (hne : u ≠ "") (ht : ev.etype = some "message")
    (hb : ev.bot_id = false) (hkey : store ("key:" ++ u) = some api_key)
    (hfiles : ev.files = some files)
    (hpf : processFiles w api_key ev.channel ev.ts files = none) :
    slack_events w store data = none := by
  simp [slack_events, hp, hev, hu, hne, ht, hb, hkey, hfiles, hpf]

/-- Every successful run of the handler produces its HTTP response as the
very last effect, with status 200; all processing and replying precedes it,
and whenever any download happened the response body is the fixed "OK". -/
theorem se_shape (w : World) (store : Store) (data : SlackPayload)
    (effs : List Effect) (store' : Store)
    (h : slack_events w store data = some (effs, store')) :
    ∃ pre body, effs = pre ++ [Effect.respond body 200] ∧
      (∀ e ∈ pre, isRespond e = false) ∧
      (countDownloads pre ≠ 0 → body = "OK") := by
  by_cases hp : data.ptype = some "url_verification"
  · cases hch : data.challenge with
    | none => rw [se_challenge_none w store data hp hch] at h; cases h
    | some ch =>
      rw [se_challenge w store data ch hp hch] at h
      injection h with h2
      injection h2 with h3 h4
      exact shape_simple effs ch h3
  · by_cases huser : (data.event.getD emptyEvent).user = none ∨
      (data.event.getD emptyEvent).user = some ""
    · rw [se_nouser w store data hp huser] at h
      injection h with h2
      injection h2 with h3 h4
      exact shape_simple effs _ h3
    · cases hev : data.event with
      | none => exact absurd (by simp [hev, emptyEvent]) huser
      | some ev =>
        obtain ⟨u, hu⟩ : ∃ u, ev.user = some u := by
          cases hvu : ev.user with
          | none => exact absurd (by simp [hev, hvu]) huser
          | some u => exact ⟨u, rfl⟩
        have hne : u ≠ "" := by
          intro hcon
          exact huser (by simp [hev, hu, hcon])
        by_cases ht : ev.etype = some "message"
        · by_cases hb : ev.bot_id = true
          · rw [se_bot w store data hp huser (by simp [hev, ht]) (by simp [hev, hb])] at h
            injection h with h2
            injection h2 with h3 h4
            exact shape_simple effs _ h3
          · rw [Bool.not_eq_true] at hb
            cases hkey : store ("key:" ++ u) with
            | none =>
              cases hwarn : pyTruthy (store ("warned:" ++ u)) with
              | true =>
                rw [se_throttle w store data ev u hp hev hu hne ht hb hkey hwarn] at h
                injection h with h2
                injection h2 with h3 h4
                exact shape_simple effs _ h3
              | false =>
                rw [se_warn w store data ev u hp hev hu hne ht hb hkey hwarn] at h
                injection h with h2
                injection h2 with h3 h4
                refine ⟨[Effect.reply ev.channel ev.ts warnText], "No API key",
                  by simp [← h3], ?_, fun hd => (hd (by simp [countDownloads, isDownload])).elim⟩
                intro e he; simp at he; simp [he, isRespond]
            | some api_key =>
              cases hfiles : ev.files with
              | none =>
                rw [se_nofiles w store data ev u api_key hp hev hu hne ht hb hkey hfiles] at h
                injection h with h2
                injection h2 with h3 h4
                exact shape_simple effs _ h3
              | some files =>
                cases hpf : processFiles w api_key ev.channel ev.ts files with
                | none =>
                  rw [se_files_err w store data ev u api_key files hp hev hu hne ht hb hkey
                    hfiles hpf] at h
                  cases h
                | some effs0 =>
                  rw [se_files w store data ev u api_key files effs0 hp hev hu hne ht hb hkey
                    hfiles hpf] at h
                  injection h with h2
                  injection h2 with h3 h4
                  refine ⟨effs0, "OK", by simp [← h3], ?_, fun _ => rfl⟩
                  exact processFiles_no_respond w api_key ev.channel ev.ts files effs0 hpf
        · rw [se_nonmsg w store data hp huser (by simp [hev, ht])] at h
          injection h with h2
          injection h2 with h3 h4
          exact shape_simple effs _ h3

/-- Replicated acknowledgments contain no replies. -/
theorem replyTexts_replicate_respond (n : Nat) (b : String) (s : Nat) :
    replyTexts (List.replicate n (Effect.respond b s)) = [] := by
  induction n with
  | zero => rfl
  | succ n ih =>
    rw [List.replicate_succ]
    simp [replyTexts, List.filterMap_cons]

/-- Replicated acknowledgments contain no downloads. -/
theorem countDownloads_replicate_respond (n : Nat) (b : String) (s : Nat) :
    countDownloads (List.replicate n (Effect.respond b s)) = 0 := by
  induction n with
  | zero => rfl
  | succ n ih =>
    rw [List.replicate_succ]
    simp [countDownloads, List.filter_cons, isDownload]

/-- Replicated acknowledgments contain no inference calls. -/
theorem countInfCalls_replicate_respond (n : Nat) (b : String) (s : Nat) :
    countInfCalls (List.replicate n (Effect.respond b s)) = 0 := by
  induction n with
  | zero => rfl
  | succ n ih =>
    rw [List.replicate_succ]
    simp [countInfCalls, List.filter_cons, isInfCall]

/-- Once the warn marker is set (and no credential appears), every further
delivery of the message only acknowledges: no reply, no store change. -/
theorem deliverMany_throttle (w : World) (data : SlackPayload) (ev : EventObj) (u : String)
    (store : Store)
    (hp : data.ptype ≠ some "url_verification") (hev : data.event = some ev)
    (hu : ev.user = some u) (hne : u ≠ "") (ht : ev.etype = some "message")
    (hb : ev.bot_id = false) (hkey : store ("key:" ++ u) = none)
    (hwarn : pyTruthy (store ("warned:" ++ u)) = true) :
    ∀ n, deliverMany w data n store =
      (List.replicate n (Effect.respond "No API key" 200), store) := by
  intro n
  induction n with
  | zero => rfl
  | succ n ih =>
    have hse := se_throttle w store data ev u hp hev hu hne ht hb hkey hwarn
    simp only [deliverMany, hse, ih]
    simp [List.replicate_succ]

/-- Reply texts distribute over trace concatenation. -/
theorem replyTexts_append (l1 l2 : List Effect) :
    replyTexts (l1 ++ l2) = replyTexts l1 ++ replyTexts l2 := by
  simp [replyTexts, List.filterMap_append]

/-- Download counts distribute over trace concatenation. -/
theorem countDownloads_append (l1 l2 : List Effect) :
    countDownloads (l1 ++ l2) = countDownloads l1 + countDownloads l2 := by
  simp [countDownloads, List.filter_append]

/-- Inference-call counts distribute over trace concatenation. -/
theorem countInfCalls_append (l1 l2 : List Effect) :
    countInfCalls (l1 ++ l2) = countInfCalls l1 + countInfCalls l2 := by
  simp [countInfCalls, List.filter_append]

/-- Reply counts distribute over trace concatenation. -/
theorem countReplies_append (l1 l2 : List Effect) :
    countReplies (l1 ++ l2) = countReplies l1 + countReplies l2 := by
  simp [countReplies, replyTexts_append]

/-- One unfolding step of `deliverMany`. -/
theorem deliverMany_succ (w : World) (data : SlackPayload) (n : Nat) (store : Store) :
    deliverMany w data (n + 1) store =
      match slack_events w store data with
      | none => ([], store)
      | some (effs, store') =>
        let r := deliverMany w data n store'
        (effs ++ r.1, r.2) := rfl

/-! ### Claim theorems -/

/-- C1 counterexample: the code performs no deduplication at all.  Two
sequential deliveries of the same logical event (`p0`, fixed `event_id`
`Ev123`) trigger two image-processing invocations (two downloads) and two
replies for its single attachment, where the claim demands exactly one
invocation and at most one reply. -/
theorem C1_counterexample :
    countDownloads (deliverMany w0 p0 2 store0).1 = 2 ∧
    countReplies (deliverMany w0 p0 2 store0).1 = 2 := by
  constructor <;> decide

/-- C1 amended: there is no idempotency gate: for a credentialed, well-formed
image message with k image attachments, each of the n deliveries performs its
own k image-processing invocations and posts its own k replies (so n
deliveries yield n·k of each), and the keyspace is left unchanged (no
deduplication marker is ever consulted or written). -/
theorem C1_amended (w : World) (data : SlackPayload) (ev : EventObj) (u api_key : String)
    (files : List FileObj) (store : Store) (n : Nat)
    (hp : data.ptype ≠ some "url_verification") (hev : data.event = some ev)
    (hu : ev.user = some u) (hne : u ≠ "") (ht : ev.etype = some "message")
    (hb : ev.bot_id = false) (hkey : store ("key:" ++ u) = some api_key)
    (hfiles : ev.files = some files)
    (hfl : ∀ f ∈ files, isImage f = true →
      f.url_private ≠ none ∧ ev.channel ≠ none ∧ ev.ts ≠ none) :
    countDownloads (deliverMany w data n store).1 =
      n * (files.filter (fun f => isImage f)).length ∧
    countReplies (deliverMany w data n store).1 =
      n * (files.filter (fun f => isImage f)).length ∧
    (deliverMany w data n store).2 = store := by
  obtain ⟨effs, hpf, hrt, hcd, _⟩ := processFiles_spec w api_key ev.channel ev.ts files hfl
  have hse := se_files w store data ev u api_key files effs hp hev hu hne ht hb hkey hfiles hpf
  have hcr : countReplies effs = (files.filter (fun f => isImage f)).length := by
    rw [countReplies, hrt, List.length_map]
  have hcd' : countDownloads effs = (files.filter (fun f => isImage f)).length := hcd
  induction n with
  | zero =>
    exact ⟨by simp [deliverMany, countDownloads],
           by simp [deliverMany, countReplies, replyTexts], rfl⟩
  | succ n ih =>
    obtain ⟨ih1, ih2, ih3⟩ := ih
    simp only [deliverMany_succ, hse]
    refine ⟨?_, ?_, ih3⟩
    · rw [countDownloads_append, countDownloads_append, hcd', ih1,
        show countDownloads [Effect.respond "OK" 200] = 0 from rfl,
        Nat.add_zero, Nat.succ_mul]
      exact Nat.add_comm _ _
    · rw [countReplies_append, countReplies_append, hcr, ih2,
        show countReplies [Effect.respond "OK" 200] = 0 from rfl,
        Nat.add_zero, Nat.succ_mul]
      exact Nat.add_comm _ _

/-- C1 amended witness: three deliveries of `p0` (one image attachment,
credentialed user U1) make 3·1 processing invocations and 3·1 replies and
leave the keyspace untouched. -/
theorem C1_amended_witness :
    countDownloads (deliverMany w0 p0 3 store0).1 =
      3 * (files0.filter (fun f => isImage f)).length ∧
    countReplies (deliverMany w0 p0 3 store0).1 =
      3 * (files0.filter (fun f => isImage f)).length ∧
    (deliverMany w0 p0 3 store0).2 = store0 :=
  C1_amended w0 p0 ev0 "U1" "sk-test" files0 store0 3 (by decide) (by decide) (by decide)
    (by decide) (by decide) (by decide) (by decide) (by decide) (by decide)

/-- C2 counterexample: processing is synchronous, not detached.  For the
admitted image delivery `p0` the handler's trace is download, inference,
reply, and only then the HTTP response: the response is produced after
image processing completes, contradicting the claimed
response-before-processing ordering. -/
theorem C2_counterexample :
    effsOf (slack_events w0 store0 p0) = trace0 ∧
    trace0.head? = some (Effect.download "https://img") ∧
    trace0.getLast? = some (Effect.respond "OK" 200) := by
  refine ⟨by decide, by decide, by decide⟩

/-- C2 amended: the HTTP response is the last effect of every successful run,
with status 200 — all image processing and replying completes before the
response is produced (the handler is synchronous).  The true part of the
claim survives: the processing outcome is never observable in the response
body, which is the fixed "OK" whenever any download occurred. -/
theorem C2_amended (w : World) (store : Store) (data : SlackPayload)
    (effs : List Effect) (store' : Store)
    (h : slack_events w store data = some (effs, store')) :
    ∃ pre body, effs = pre ++ [Effect.respond body 200] ∧
      (∀ e ∈ pre, isRespond e = false) ∧
      (countDownloads pre ≠ 0 → body = "OK") :=
  se_shape w store data effs store' h

/-- C2 amended witness: the concrete trace of one delivery of `p0`
decomposes as processing effects followed by the final respond effect. -/
theorem C2_amended_witness :
    ∃ pre body, trace0 = pre ++ [Effect.respond body 200] ∧
      (∀ e ∈ pre, isRespond e = false) ∧
      (countDownloads pre ≠ 0 → body = "OK") :=
  C2_amended w0 store0 p0 trace0 store0 rfl

/-- C3: a user with no stored credential who delivers the same message n+1
times within one throttle window (the warn marker, once set, stays within
its TTL) receives exactly one registration-prompt reply — the warn text and
nothing else — the marker is set, and no image download or inference call is
ever made. -/
theorem C3_confirmed (w : World) (data : SlackPayload) (ev : EventObj) (u : String)
    (store : Store) (n : Nat)
    (hp : data.ptype ≠ some "url_verification") (hev : data.event = some ev)
    (hu : ev.user = some u) (hne : u ≠ "") (ht : ev.etype = some "message")
    (hb : ev.bot_id = false) (hkey : store ("key:" ++ u) = none)
    (hwarn : pyTruthy (store ("warned:" ++ u)) = false) :
    replyTexts (deliverMany w data (n + 1) store).1 = [warnText] ∧
    countDownloads (deliverMany w data (n + 1) store).1 = 0 ∧
    countInfCalls (deliverMany w data (n + 1) store).1 = 0 ∧
    (deliverMany w data (n + 1) store).2 ("warned:" ++ u) = some "1" := by
  have hw1 := se_warn w store data ev u hp hev hu hne ht hb hkey hwarn
  have hk1 : setStore store ("warned:" ++ u) "1" ("key:" ++ u) = none := by
    rw [setStore_ne _ _ _ _ (key_ne_warned u u)]; exact hkey
  have hw2 : pyTruthy (setStore store ("warned:" ++ u) "1" ("warned:" ++ u)) = true := by
    rw [setStore_self]; rfl
  have hrest := deliverMany_throttle w data ev u (setStore store ("warned:" ++ u) "1")
    hp hev hu hne ht hb hk1 hw2 n
  simp only [deliverMany_succ, hw1, hrest]
  refine ⟨?_, ?_, ?_, setStore_self _ _ _⟩
  · rw [replyTexts_append, replyTexts_replicate_respond]
    simp [replyTexts]
  · rw [countDownloads_append, countDownloads_replicate_respond]
    simp [countDownloads, isDownload]
  · rw [countInfCalls_append, countInfCalls_replicate_respond]
    simp [countInfCalls, isInfCall]

/-- C3 witness: credential-less user U2 delivering the image message `pWarn`
five times gets exactly the one warn reply, zero downloads, zero inference
calls, and the throttle marker set. -/
theorem C3_witness :
    replyTexts (deliverMany w0 pWarn (4 + 1) emptyStore).1 = [warnText] ∧
    countDownloads (deliverMany w0 pWarn (4 + 1) emptyStore).1 = 0 ∧
    countInfCalls (deliverMany w0 pWarn (4 + 1) emptyStore).1 = 0 ∧
    (deliverMany w0 pWarn (4 + 1) emptyStore).2 ("warned:" ++ "U2") = some "1" :=
  C3_confirmed w0 pWarn evWarn "U2" emptyStore 4 (by decide) (by decide) (by decide)
    (by decide) (by decide) (by decide) (by decide) (by decide)

/-- C5: a credentialed image message with any list of attachments is
processed per attachment: the handler posts one independent reply per
image-typed attachment, in order, each carrying that attachment's own
`handle_image` outcome — whatever it is, so one attachment's failure reply
never cancels or alters its siblings'. -/
theorem C5_confirmed (w : World) (store : Store) (data : SlackPayload) (ev : EventObj)
    (u api_key : String) (files : List FileObj)
    (hp : data.ptype ≠ some "url_verification") (hev : data.event = some ev)
    (hu : ev.user = some u) (hne : u ≠ "") (ht : ev.etype = some "message")
    (hb : ev.bot_id = false) (hkey : store ("key:" ++ u) = some api_key)
    (hfiles : ev.files = some files)
    (hfl : ∀ f ∈ files, isImage f = true →
      f.url_private ≠ none ∧ ev.channel ≠ none ∧ ev.ts ≠ none) :
    ∃ effs, slack_events w store data = some (effs ++ [Effect.respond "OK" 200], store) ∧
      replyTexts effs = (files.filter (fun f => isImage f)).map
        (fun f => (handle_image w (f.url_private.getD "") api_key).1) := by
  obtain ⟨effs, hpf, hrt, _, _⟩ := processFiles_spec w api_key ev.channel ev.ts files hfl
  exact ⟨effs, se_files w store data ev u api_key files effs hp hev hu hne ht hb hkey
    hfiles hpf, hrt⟩

/-- C5 witness: with `wDual` the first attachment's download fails (500) and
the second succeeds, yet the delivery `pDual` posts one reply per image
attachment — the failure reply and the receipt reply — skipping the
non-image attachment. -/
theorem C5_witness :
    ∃ effs, slack_events wDual store0 pDual =
        some (effs ++ [Effect.respond "OK" 200], store0) ∧
      replyTexts effs = (filesDual.filter (fun f => isImage f)).map
        (fun f => (handle_image wDual (f.url_private.getD "") "sk-test").1) :=
  C5_confirmed wDual store0 pDual evDual "U1" "sk-test" filesDual (by decide) (by decide)
    (by decide) (by decide) (by decide) (by decide) (by decide) (by decide) (by decide)

/-- C6: every well-formed inbound delivery — whatever the processing outcome,
the credential state or the world's responses — is answered with HTTP 200;
only malformed payloads (a missing bracket-accessed field) escape as an
exception and draw a framework error status. -/
theorem C6_confirmed (w : World) (store : Store) (data : SlackPayload)
    (hwf : wellFormedB data = true) :
    statusOf (slack_events w store data) = some 200 := by
  by_cases hp : data.ptype = some "url_verification"
  · have hch : data.challenge.isSome = true := by simpa [wellFormedB, hp] using hwf
    obtain ⟨ch, hch⟩ := Option.isSome_iff_exists.mp hch
    rw [se_challenge w store data ch hp hch]
    simp [statusOf]
  · by_cases huser : (data.event.getD emptyEvent).user = none ∨
        (data.event.getD emptyEvent).user = some ""
    · rw [se_nouser w store data hp huser]
      simp [statusOf]
    · cases hev : data.event with
      | none => exact absurd (by simp [hev, emptyEvent]) huser
      | some ev =>
        obtain ⟨u, hu⟩ : ∃ u, ev.user = some u := by
          cases hvu : ev.user with
          | none => exact absurd (by simp [hev, hvu]) huser
          | some u => exact ⟨u, rfl⟩
        have hne : u ≠ "" := fun hcon => huser (by simp [hev, hu, hcon])
        by_cases ht : ev.etype = some "message"
        · by_cases hb : ev.bot_id = true
          · rw [se_bot w store data hp huser (by simp [hev, ht]) (by simp [hev, hb])]
            simp [statusOf]
          · rw [Bool.not_eq_true] at hb
            cases hkey : store ("key:" ++ u) with
            | none =>
              cases hwarn : pyTruthy (store ("warned:" ++ u)) with
              | true =>
                rw [se_throttle w store data ev u hp hev hu hne ht hb hkey hwarn]
                simp [statusOf]
              | false =>
                rw [se_warn w store data ev u hp hev hu hne ht hb hkey hwarn]
                simp [statusOf]
            | some api_key =>
              cases hfiles : ev.files with
              | none =>
                rw [se_nofiles w store data ev u api_key hp hev hu hne ht hb hkey hfiles]
                simp [statusOf]
              | some files =>
                have hfl : ∀ f ∈ files, isImage f = true →
                    f.url_private ≠ none ∧ ev.channel ≠ none ∧ ev.ts ≠ none := by
                  intro f hf himg
                  have hall : files.all (wellFormedFileB ev) = true := by
                    simpa [wellFormedB, hp, hev, hfiles] using hwf
                  have hfx := List.all_eq_true.mp hall f hf
                  unfold wellFormedFileB at hfx
                  rw [himg] at hfx
                  simp only [Bool.not_true, Bool.false_or, Bool.and_eq_true] at hfx
                  obtain ⟨⟨h1, h2⟩, h3⟩ := hfx
                  refine ⟨?_, ?_, ?_⟩
                  · intro hnone; rw [hnone] at h1; simp at h1
                  · intro hnone; rw [hnone] at h2; simp at h2
                  · intro hnone; rw [hnone] at h3; simp at h3
                obtain ⟨effs, hpf, _, _, _⟩ :=
                  processFiles_spec w api_key ev.channel ev.ts files hfl
                rw [se_files w store data ev u api_key files effs hp hev hu hne ht hb hkey
                  hfiles hpf]
                simp [statusOf, List.getLast?_concat]
        · rw [se_nonmsg w store data hp huser (by simp [hev, ht])]
          simp [statusOf]

/-- C6 witness: the well-formed delivery `p0` is answered with status 200. -/
theorem C6_witness : statusOf (slack_events w0 store0 p0) = some 200 :=
  C6_confirmed w0 store0 p0 (by decide)

/-- C7: a url_verification payload is answered with the literal challenge
token and status 200, for every keyspace (hence regardless of credential or
any previously seen event) and with no store mutation or side effect — even
when its event_id collides with a previously seen key, since the code never
reads event_id. -/
theorem C7_confirmed (w : World) (store : Store) (data : SlackPayload) (ch : String)
    (h1 : data.ptype = some "url_verification") (h2 : data.challenge = some ch) :
    slack_events w store data = some ([Effect.respond ch 200], store) :=
  se_challenge w store data ch h1 h2

/-- C7 witness: `pVerif` reuses the colliding event_id Ev123 and a keyspace
with prior state, and still gets exactly its challenge token back. -/
theorem C7_witness :
    slack_events w0 store0 pVerif = some ([Effect.respond "tok-123" 200], store0) :=
  C7_confirmed w0 store0 pVerif "tok-123" (by decide) (by decide)

set_option maxRecDepth 8192 in
/-- C4 counterexample: the failure reply for a non-2xx inference status
embeds the entire raw response body, not a bounded-length excerpt: with a
1000-character body the whole body reappears verbatim in the reply, whose
length grows with the body (1027 = 27 + 1000), so no fixed bound exists. -/
theorem C4_counterexample :
    (handle_image wLong "https://img" "k").1 = ":x: Tiliter API error 500: " ++ longBody ∧
    longBody.length = 1000 ∧
    (handle_image wLong "https://img" "k").1.length = 1027 := by
  refine ⟨by decide, by decide, by decide⟩

/-- C4 amended: `handle_image` is total — every branch returns a reply text
and none raises: a non-2xx download status yields the failure reply citing
that status; a non-2xx inference status yields the failure reply citing the
status and the entire raw body (unbounded, not an excerpt); a parsed result
yields the formatted receipt; a malformed/non-JSON result yields the failure
reply wrapping the parse error. -/
theorem C4_amended (w : World) (image_url api_key : String) :
    ((w.download image_url).status ≠ 200 →
      (handle_image w image_url api_key).1 =
        ":x: Failed to download image. Status: " ++ toString (w.download image_url).status) ∧
    ((w.download image_url).status = 200 →
      ((w.inference api_key
          ("data:image/jpeg;base64," ++ base64Encode (w.download image_url).content)).status
            ≠ 200 →
        (handle_image w image_url api_key).1 =
          ":x: Tiliter API error " ++
            toString (w.inference api_key
              ("data:image/jpeg;base64," ++
                base64Encode (w.download image_url).content)).status ++ ": " ++
            (w.inference api_key
              ("data:image/jpeg;base64," ++
                base64Encode (w.download image_url).content)).text) ∧
      ((w.inference api_key
          ("data:image/jpeg;base64," ++ base64Encode (w.download image_url).content)).status
            = 200 →
        (∀ r, (w.inference api_key
            ("data:image/jpeg;base64," ++
              base64Encode (w.download image_url).content)).parse = InfParse.parsed r →
          (handle_image w image_url api_key).1 = formatReceipt r) ∧
        (∀ e, (w.inference api_key
            ("data:image/jpeg;base64," ++
              base64Encode (w.download image_url).content)).parse = InfParse.parseError e →
          (handle_image w image_url api_key).1 =
            ":x: Could not parse Tiliter response:\n" ++ e))) := by
  refine ⟨fun h => ?_, fun h200 => ⟨fun hS => ?_, fun hS200 => ⟨fun r hr => ?_, fun e he => ?_⟩⟩⟩
  · simp [handle_image, h]
  · simp [handle_image, h200, hS]
  · simp [handle_image, h200, hS200, hr]
  · simp [handle_image, h200, hS200, he]

/-- C4 amended witness: a failed download (status 500) yields the download
failure reply citing the status. -/
theorem C4_amended_witness :
    (handle_image wDown500 "https://img" "k").1 =
      ":x: Failed to download image. Status: 500" := by
  rw [(C4_amended wDown500 "https://img" "k").1 (by decide)]
  decide

/-- C8 counterexample: an absent currency field is omitted, not rendered as
an explicit placeholder: the all-absent result renders its Total line as
"*N/A *" with nothing in the currency slot, indistinguishably from a
present-but-empty currency, where the claim demands a placeholder for every
absent field. -/
theorem C8_counterexample :
    formatReceipt rAllNone =
      "🧾 *Receipt Details:*\n- Merchant: *Unknown*\n- Date: *N/A*\n- Total: *N/A *\n- Address: N/A\n\n🛒 *Items:*\n_No items detected._" ∧
    formatReceipt { rAllNone with currency := some "" } = formatReceipt rAllNone ∧
    renderedCurrency rAllNone = "" := by
  refine ⟨by decide, by decide, rfl⟩

/-- C8 amended: formatting is total and never returns empty text, and every
absent field except currency renders as an explicit placeholder (merchant →
Unknown, total/date/address → N/A, items → the no-items line, item name →
Unnamed, item price → N/A); an absent currency renders as the empty string,
i.e. is omitted. -/
theorem C8_amended (r : ReceiptResult) :
    formatReceipt r ≠ "" ∧
    (r.merchant = none → renderedMerchant r = "Unknown") ∧
    (r.total = none → renderedTotal r = "N/A") ∧
    (r.date = none → renderedDate r = "N/A") ∧
    (r.address = none → renderedAddress r = "N/A") ∧
    (r.items = none → renderedItemLines r = "_No items detected._") ∧
    (r.currency = none → renderedCurrency r = "") ∧
    (∀ i : Item, i.name = none → renderedItemName i = "Unnamed") ∧
    (∀ i : Item, i.price = none → renderedItemPrice i = "N/A") := by
  refine ⟨?_, ?_, ?_, ?_, ?_, ?_, ?_, ?_, ?_⟩
  · intro h
    have h2 := congrArg String.length h
    simp only [formatReceipt, String.length_append, String.length_empty] at h2
    have hpos : ("🧾 *Receipt Details:*\n- Merchant: *").length ≠ 0 := by decide
    omega
  · intro h; simp [renderedMerchant, h, pyOr]
  · intro h; simp [renderedTotal, h, pyOr]
  · intro h; simp [renderedDate, h, pyOr]
  · intro h; simp [renderedAddress, h, pyOr]
  · intro h; simp [renderedItemLines, h, itemLinesOf]
  · intro h; simp [renderedCurrency, h, pyOr]
  · intro i h; simp [renderedItemName, h]
  · intro i h; simp [renderedItemPrice, h, pyOr]

/-- C8 amended witness: the all-absent result yields non-empty text with the
merchant placeholder, the empty currency rendering, and the item-name
placeholder for an all-absent item. -/
theorem C8_amended_witness :
    formatReceipt rAllNone ≠ "" ∧
    renderedMerchant rAllNone = "Unknown" ∧
    renderedCurrency rAllNone = "" ∧
    renderedItemName { name := none, price := none } = "Unnamed" := by
  obtain ⟨h1, h2, _, _, _, _, h7, h8, _⟩ := C8_amended rAllNone
  exact ⟨h1, h2 rfl, h7 rfl, h8 { name := none, price := none } rfl⟩

/-- C9 counterexample: registration strips the submitted secret, so the
stored value is not always the submitted one: a whitespace-only (non-empty)
secret is rejected outright and the read reports not-found; a padded secret
" sk-1 " reads back as the stripped "sk-1"; and an empty user_id is refused
by every command. -/
theorem C9_counterexample :
    get_api_key (set_api_key emptyStore (some "U1") (some " ")).2 (some "U1") =
      "ℹ️ No API key found for your user." ∧
    get_api_key (set_api_key emptyStore (some "U1") (some " sk-1 ")).2 (some "U1") =
      "🔐 Your current API key is:\n```sk-1```" ∧
    get_api_key (set_api_key emptyStore (some "") (some "sk-2")).2 (some "") =
      "❌ Could not identify your user ID." := by
  refine ⟨by decide, by decide, by decide⟩

/-- C9 amended: for every non-empty user_id and every secret that is
non-empty after whitespace stripping, registration stores the stripped
secret, an uninterrupted read returns exactly that stripped secret (inside
the key-found message), and after deletion the read returns the not-found
text. -/
theorem C9_amended (store : Store) (u s : String) (hu : u ≠ "") (hs : pyStrip s ≠ "") :
    get_api_key (set_api_key store (some u) (some s)).2 (some u) =
      "🔐 Your current API key is:\n```" ++ pyStrip s ++ "```" ∧
    get_api_key (delete_api_key (set_api_key store (some u) (some s)).2 (some u)).2
      (some u) = "ℹ️ No API key found for your user." := by
  have hset : (set_api_key store (some u) (some s)).2 =
      setStore store ("key:" ++ u) (pyStrip s) := by
    simp [set_api_key, hu, hs]
  constructor
  · rw [hset]
    simp [get_api_key, hu, setStore_self, hs]
  · have hdel : (delete_api_key (setStore store ("key:" ++ u) (pyStrip s)) (some u)).2 =
        delStore (delStore (setStore store ("key:" ++ u) (pyStrip s)) ("key:" ++ u))
          ("warned:" ++ u) := by
      simp [delete_api_key, hu]
    have hread : delStore (delStore (setStore store ("key:" ++ u) (pyStrip s))
        ("key:" ++ u)) ("warned:" ++ u) ("key:" ++ u) = none := by
      rw [delStore_ne _ _ _ (key_ne_warned u u)]
      exact delStore_self _ _
    rw [hset, hdel]
    simp [get_api_key, hu, hread]

/-- C9 amended witness: register, read and delete for U1 with the padded
secret " sk-1 ". -/
theorem C9_amended_witness :
    get_api_key (set_api_key emptyStore (some "U1") (some " sk-1 ")).2 (some "U1") =
      "🔐 Your current API key is:\n```" ++ pyStrip " sk-1 " ++ "```" ∧
    get_api_key
      (delete_api_key (set_api_key emptyStore (some "U1") (some " sk-1 ")).2 (some "U1")).2
      (some "U1") = "ℹ️ No API key found for your user." :=
  C9_amended emptyStore "U1" " sk-1 " (by decide) (by decide)

/-- C10: for every (non-empty) user_id, the delete command removes exactly
that user's credential entry and that user's warn-throttle marker, changing
no other key; consequently a credential-less message from that user arriving
right after deletion is warned immediately — the pre-existing throttle
marker cannot silence it, because it was deleted too. -/
theorem C10_confirmed (store : Store) (u : String) (hu : u ≠ "") :
    (delete_api_key store (some u)).2 ("key:" ++ u) = none ∧
    (delete_api_key store (some u)).2 ("warned:" ++ u) = none ∧
    (∀ k, k ≠ "key:" ++ u → k ≠ "warned:" ++ u →
      (delete_api_key store (some u)).2 k = store k) ∧
    (∀ (w : World) (data : SlackPayload) (ev : EventObj),
      data.ptype ≠ some "url_verification" → data.event = some ev →
      ev.user = some u → ev.etype = some "message" → ev.bot_id = false →
      replyTexts (effsOf (slack_events w (delete_api_key store (some u)).2 data)) =
        [warnText]) := by
  have hdel : (delete_api_key store (some u)).2 =
      delStore (delStore store ("key:" ++ u)) ("warned:" ++ u) := by
    simp [delete_api_key, hu]
  have hk : (delete_api_key store (some u)).2 ("key:" ++ u) = none := by
    rw [hdel, delStore_ne _ _ _ (key_ne_warned u u)]
    exact delStore_self _ _
  have hw : (delete_api_key store (some u)).2 ("warned:" ++ u) = none := by
    rw [hdel]
    exact delStore_self _ _
  refine ⟨hk, hw, ?_, ?_⟩
  · intro k h1 h2
    rw [hdel, delStore_ne _ _ _ h2, delStore_ne _ _ _ h1]
  · intro w data ev hp hev hu2 ht hb
    have hwt : pyTruthy ((delete_api_key store (some u)).2 ("warned:" ++ u)) = false := by
      rw [hw]; rfl
    rw [se_warn w ((delete_api_key store (some u)).2) data ev u hp hev hu2 hu ht hb hk hwt]
    simp [effsOf, replyTexts]

/-- C10 witness: deleting U1 from a keyspace that held U1's credential, U1's
warn marker and U2's credential removes exactly U1's two entries, leaves
U2's untouched, and U1's next image message is warned immediately. -/
theorem C10_witness :
    (delete_api_key storeC (some "U1")).2 ("key:" ++ "U1") = none ∧
    (delete_api_key storeC (some "U1")).2 ("warned:" ++ "U1") = none ∧
    (delete_api_key storeC (some "U1")).2 "key:U2" = storeC "key:U2" ∧
    replyTexts (effsOf (slack_events w0 (delete_api_key storeC (some "U1")).2 p0)) =
      [warnText] := by
  obtain ⟨h1, h2, h3, h4⟩ := C10_confirmed storeC "U1" (by decide)
  exact ⟨h1, h2, h3 "key:U2" (by decide) (by decide),
    h4 w0 p0 ev0 (by decide) (by decide) (by decide) (by decide) (by decide)⟩

end ReceiptBot
